import Mathlib

/-!
Verification of the radiation module (src/ht/radiation.py).

The module has three stateless functions: blackbody_spectral_radiance
(Planck law), q_rad (Stefan-Boltzmann net flux) and solar_spectrum
(a loader for a bundled three-column data table). Machine floats are
modelled by real numbers; the IEEE NaN sentinel used for missing
uncertainties is modelled by `none` in `Option ℝ`; Python exceptions
are modelled by `Except PyErr`.
-/

namespace HT

/-- Python exception outcomes reachable in this module. -/
inductive PyErr where
  | zeroDivisionError
  | unboundLocalError
deriving DecidableEq, Repr

/-- Stefan-Boltzmann constant sigma, W m^-2 K^-4. The source imports it from
scipy.constants; the spec prescribes the CODATA value 5.670374419e-8. -/
noncomputable def sigma : ℝ := 5.670374419e-8

/-- Planck constant h, J s. The source imports it from scipy.constants; the
spec prescribes the CODATA value 6.62607015e-34. -/
noncomputable def h : ℝ := 6.62607015e-34

/-- Speed of light c, m/s. The source imports it from scipy.constants; the
spec prescribes 299792458. -/
noncomputable def c : ℝ := 299792458

/-- Boltzmann constant k, J/K. The source imports it from scipy.constants;
the spec prescribes the CODATA value 1.380649e-23. -/
noncomputable def k : ℝ := 1.380649e-23

/-- Embeds blackbody_spectral_radiance(T, wavelength), the expression
2.*h*c**2/wavelength**5/(exp(h*c/(wavelength*T*k)) - 1.) from the source. -/
noncomputable def blackbody_spectral_radiance (T wavelength : ℝ) : ℝ :=
  2 * h * c ^ 2 / wavelength ^ 5 / (Real.exp (h * c / (wavelength * T * k)) - 1)

/-- Embeds blackbody_spectral_radiance with Python float-division semantics:
a division whose denominator is zero raises ZeroDivisionError, the
denominators being tested in the order the source expression evaluates them
(wavelength**5, then wavelength*T*k inside exp, then exp(...) - 1). -/
noncomputable def blackbody_spectral_radiance_checked (T wavelength : ℝ) :
    Except PyErr ℝ :=
  if wavelength ^ 5 = 0 then .error .zeroDivisionError
  else if wavelength * T * k = 0 then .error .zeroDivisionError
  else if Real.exp (h * c / (wavelength * T * k)) - 1 = 0 then .error .zeroDivisionError
  else .ok (2 * h * c ^ 2 / wavelength ^ 5 / (Real.exp (h * c / (wavelength * T * k)) - 1))

/-- Embeds q_rad(emissivity, T, T2), the expression
sigma*emissivity*(T**4 - T2**4) from the source. The Python default for the
omitted third argument is T2 = 0; callers of the embedding pass 0 there. -/
noncomputable def q_rad (emissivity T T2 : ℝ) : ℝ :=
  sigma * emissivity * (T ^ 4 - T2 ^ 4)

/-- Modelled from the spec: the bundled file data/solar_iss_2018_spectrum.dat
is not under src/, so the parsed table is a parameter, a list of rows
(wavelength in nm, spectral irradiance in W m^-2 nm^-1, uncertainty with -1
as the missing sentinel), per the spec section on the solar spectrum table.
The body embeds solar_spectrum(model) from the source: for the model string
SOLAR-ISS it splits the table into its three columns, scales wavelengths by
1e-9 and irradiances by 1e9, replaces uncertainties equal to -1 with NaN
(modelled as `none`) and then scales the remaining uncertainties by 1e9;
for any other model the final `return` of never-assigned local variables
raises UnboundLocalError. -/
noncomputable def solar_spectrum (data : List (ℝ × ℝ × ℝ)) (model : String) :
    Except PyErr (List ℝ × List ℝ × List (Option ℝ)) :=
  if model = "SOLAR-ISS" then
    let wavelengths := data.map fun r => r.1
    let SSI := data.map fun r => r.2.1
    let uncertainties := data.map fun r => r.2.2
    let wavelengthsM := wavelengths.map fun x => x * 1e-9
    let SSIM := SSI.map fun x => x * 1e9
    let uncNan : List (Option ℝ) :=
      uncertainties.map fun u => if u = -1 then none else some u
    let uncScaled := uncNan.map (Option.map fun u => u * 1e9)
    .ok (wavelengthsM, SSIM, uncScaled)
  else .error .unboundLocalError

/-- Helper: closed form of solar_spectrum on the SOLAR-ISS branch, with the
uncertainty pipeline (substitute first, scale second) fused per row. -/
theorem solar_spectrum_iss_eq (data : List (ℝ × ℝ × ℝ)) :
    solar_spectrum data "SOLAR-ISS" =
      .ok (data.map fun r => r.1 * 1e-9,
           data.map fun r => r.2.1 * 1e9,
           data.map fun r => if r.2.2 = -1 then none else some (r.2.2 * 1e9)) := by
  unfold solar_spectrum
  rw [if_pos rfl]
  have hrow : ∀ u : ℝ,
      Option.map (fun v => v * 1e9) (if u = -1 then none else some u) =
        (if u = -1 then none else some (u * 1e9)) := by
    intro u
    split <;> simp
  simp [List.map_map, Function.comp_def, hrow]

/-- C1: q_rad(e, T, T2) returns sigma times e times (T^4 - T2^4); with the
surroundings temperature omitted (default T2 = 0) it returns sigma e T^4. -/
theorem C1_q_rad_formula (e T T2 : ℝ) :
    q_rad e T T2 = sigma * e * (T ^ 4 - T2 ^ 4) ∧
      q_rad e T 0 = sigma * e * T ^ 4 := by
  constructor
  · rfl
  · unfold q_rad
    ring

/-- C5: q_rad is antisymmetric in the two temperatures:
q_rad(e, T, T2) = -q_rad(e, T2, T). -/
theorem C5_q_rad_antisymmetry (e T T2 : ℝ) : q_rad e T T2 = -q_rad e T2 T := by
  unfold q_rad
  ring

/-- C10: at equal surface and surroundings temperatures the net radiant flux
vanishes: q_rad(e, T, T) = 0. -/
theorem C10_q_rad_equal_temps (e T : ℝ) : q_rad e T T = 0 := by
  unfold q_rad
  ring

/-- C2: for T > 0 and wavelength > 0, blackbody_spectral_radiance(T, lam)
equals 2 h c^2 / (lam^5 (exp(h c / (lam T k)) - 1)). -/
theorem C2_blackbody_formula (T lam : ℝ) (hT : 0 < T) (hl : 0 < lam) :
    blackbody_spectral_radiance T lam =
      2 * h * c ^ 2 / (lam ^ 5 * (Real.exp (h * c / (lam * T * k)) - 1)) := by
  unfold blackbody_spectral_radiance
  rw [div_div]

/-- Witness for C2 at T = 800 K, wavelength = 4e-6 m. -/
theorem C2_witness :
    0 < (800 : ℝ) ∧ 0 < (4e-6 : ℝ) ∧
      blackbody_spectral_radiance 800 4e-6 =
        2 * h * c ^ 2 / ((4e-6 : ℝ) ^ 5 *
          (Real.exp (h * c / (4e-6 * 800 * k)) - 1)) :=
  ⟨by norm_num, by norm_num,
    C2_blackbody_formula 800 4e-6 (by norm_num) (by norm_num)⟩

/-- C3, evaluating the code at the failing input: for a model string other
than SOLAR-ISS the source skips the if-branch and its return statement
raises UnboundLocalError, not an explicit unsupported-model error. -/
theorem C3_unsupported_model (data : List (ℝ × ℝ × ℝ)) :
    solar_spectrum data "SRPM" = .error .unboundLocalError := by
  unfold solar_spectrum
  rw [if_neg (by decide)]

/-- C4: on the SOLAR-ISS model the three returned columns are, in the
original row order with no sorting or filtering: wavelength scaled by 1e-9,
irradiance scaled by 1e9, and uncertainty with values equal to -1 replaced
by NaN before scaling (so they stay NaN) and all other values scaled by 1e9
and otherwise unaltered. -/
theorem C4_solar_iss_columns (data : List (ℝ × ℝ × ℝ)) :
    solar_spectrum data "SOLAR-ISS" =
      .ok (data.map fun r => r.1 * 1e-9,
           data.map fun r => r.2.1 * 1e9,
           data.map fun r => if r.2.2 = -1 then none else some (r.2.2 * 1e9)) :=
  solar_spectrum_iss_eq data

/-- C6: blackbody_spectral_radiance raises ZeroDivisionError whenever the
wavelength or the temperature is zero; the error propagates as the result,
and there is no guard: at nonzero arguments the unguarded formula value is
returned. -/
theorem C6_blackbody_zero_error (T wavelength : ℝ) :
    ((wavelength = 0 ∨ T = 0) →
      blackbody_spectral_radiance_checked T wavelength =
        .error .zeroDivisionError) ∧
    (wavelength ≠ 0 → T ≠ 0 →
      blackbody_spectral_radiance_checked T wavelength =
        .ok (blackbody_spectral_radiance T wavelength)) := by
  constructor
  · rintro (hw | hT)
    · subst hw
      unfold blackbody_spectral_radiance_checked
      rw [if_pos (by norm_num)]
    · subst hT
      unfold blackbody_spectral_radiance_checked
      by_cases hw : wavelength ^ 5 = 0
      · rw [if_pos hw]
      · rw [if_neg hw, if_pos (by ring)]
  · intro hw hT
    have h5 : wavelength ^ 5 ≠ 0 := pow_ne_zero _ hw
    have hkne : k ≠ 0 := by norm_num [k]
    have hden : wavelength * T * k ≠ 0 := mul_ne_zero (mul_ne_zero hw hT) hkne
    have hhc : h * c ≠ 0 := by norm_num [h, c]
    have harg : h * c / (wavelength * T * k) ≠ 0 := div_ne_zero hhc hden
    have hexp : Real.exp (h * c / (wavelength * T * k)) - 1 ≠ 0 := by
      intro heq
      exact harg ((Real.exp_eq_one_iff _).mp (sub_eq_zero.mp heq))
    unfold blackbody_spectral_radiance_checked blackbody_spectral_radiance
    rw [if_neg h5, if_neg hden, if_neg hexp]

/-- Witness for C6: error at T = 0, wavelength = 1; plain value at
T = 800, wavelength = 4e-6. -/
theorem C6_witness :
    (((1 : ℝ) = 0 ∨ (0 : ℝ) = 0) ∧
      blackbody_spectral_radiance_checked 0 1 = .error .zeroDivisionError) ∧
    ((4e-6 : ℝ) ≠ 0 ∧ (800 : ℝ) ≠ 0 ∧
      blackbody_spectral_radiance_checked 800 4e-6 =
        .ok (blackbody_spectral_radiance 800 4e-6)) :=
  ⟨⟨Or.inr rfl, (C6_blackbody_zero_error 0 1).1 (Or.inr rfl)⟩,
   ⟨by norm_num, by norm_num,
     (C6_blackbody_zero_error 800 4e-6).2 (by norm_num) (by norm_num)⟩⟩

/-- C7: for T > 0 and wavelength > 0 the spectral radiance is strictly
positive. -/
theorem C7_blackbody_pos (T wavelength : ℝ) (hT : 0 < T) (hw : 0 < wavelength) :
    0 < blackbody_spectral_radiance T wavelength := by
  unfold blackbody_spectral_radiance
  have hh : (0 : ℝ) < h := by norm_num [h]
  have hcp : (0 : ℝ) < c := by norm_num [c]
  have hkp : (0 : ℝ) < k := by norm_num [k]
  have harg : 0 < h * c / (wavelength * T * k) :=
    div_pos (mul_pos hh hcp) (mul_pos (mul_pos hw hT) hkp)
  have hexp : 1 < Real.exp (h * c / (wavelength * T * k)) :=
    Real.one_lt_exp_iff.mpr harg
  have hnum : 0 < 2 * h * c ^ 2 :=
    mul_pos (mul_pos two_pos hh) (pow_pos hcp 2)
  exact div_pos (div_pos hnum (pow_pos hw 5)) (by linarith)

/-- Witness for C7 at T = 800 K, wavelength = 4e-6 m. -/
theorem C7_witness :
    0 < (800 : ℝ) ∧ 0 < (4e-6 : ℝ) ∧
      0 < blackbody_spectral_radiance 800 4e-6 :=
  ⟨by norm_num, by norm_num, C7_blackbody_pos 800 4e-6 (by norm_num) (by norm_num)⟩

/-- C8 counterexample: with sigma = 5.670374419e-8 as the spec prescribes,
q_rad(1, 400, 0) is not 1451.613952 and misses it by more than 1e-3, so the
claimed value does not hold at the stated precision. -/
theorem C8_counterexample :
    q_rad 1 400 0 ≠ 1451.613952 ∧ 1451.613952 + 1e-3 < q_rad 1 400 0 := by
  unfold q_rad sigma
  norm_num

/-- C8 amended: with sigma = 5.670374419e-8, q_rad(1, 400, 0) is exactly
1451.615851264; the figure 1451.613952 quoted by the spec corresponds to the
older CODATA-2014 value sigma = 5.670367e-8. -/
theorem C8_amended : q_rad 1 400 0 = 1451.615851264 := by
  unfold q_rad sigma
  norm_num

/-- C9: on any nonempty table, solar_spectrum with the default SOLAR-ISS
model returns three sequences of equal, nonzero length. -/
theorem C9_solar_lengths (data : List (ℝ × ℝ × ℝ)) (hne : data ≠ []) :
    ∃ w s u, solar_spectrum data "SOLAR-ISS" = .ok (w, s, u) ∧
      w.length = data.length ∧ s.length = data.length ∧
      u.length = data.length ∧ 0 < w.length := by
  refine ⟨_, _, _, solar_spectrum_iss_eq data, ?_, ?_, ?_, ?_⟩ <;>
    simp [List.length_pos, hne]

/-- Witness for C9 on a one-row table. -/
theorem C9_witness :
    ([((0.5 : ℝ), (1330 : ℝ), (-1 : ℝ))] ≠ ([] : List (ℝ × ℝ × ℝ))) ∧
    ∃ w s u, solar_spectrum [((0.5 : ℝ), 1330, -1)] "SOLAR-ISS" = .ok (w, s, u) ∧
      w.length = [((0.5 : ℝ), (1330 : ℝ), (-1 : ℝ))].length ∧
      s.length = [((0.5 : ℝ), (1330 : ℝ), (-1 : ℝ))].length ∧
      u.length = [((0.5 : ℝ), (1330 : ℝ), (-1 : ℝ))].length ∧ 0 < w.length :=
  ⟨by simp, C9_solar_lengths [((0.5 : ℝ), 1330, -1)] (by simp)⟩

end HT
